import Mathlib

/-!
Shallow embedding of the `ym` repository (a terminal chat client for the
YandexGPT completion API) and proofs about it.

Rust strings are modelled as `String`/`List Char`; `String::len()` in Rust
counts UTF-8 bytes, modelled by `utf8ByteLen`.  Rust code that can panic
(out-of-bounds `Vec::remove`/indexing, byte slicing off a character
boundary, explicit `panic!` calls) is modelled with `Option`/`none`.
-/

namespace YM

/-- UTF-8 byte length of a character sequence: Rust `String::len`. -/
def utf8ByteLen (s : List Char) : Nat := (s.map Char.utf8Size).sum

/-- Rust `str::trim`: drop leading and trailing whitespace. -/
def trimChars (s : List Char) : List Char :=
  ((s.dropWhile Char.isWhitespace).reverse.dropWhile Char.isWhitespace).reverse

/- ------------------------------------------------------------------ -/
/- ym-yagpt/src/models.rs                                              -/
/- ------------------------------------------------------------------ -/

/-- Credentials pair, `AccessData` in ym-yagpt/src/models.rs. -/
structure AccessData where
  id_catalog : String
  api_key : String
deriving DecidableEq, Repr

/-- `AccessData::default()`: both fields empty. -/
def AccessData.default : AccessData := ⟨"", ""⟩

/-- `AccessData::has_data`: both fields non-empty after trimming. -/
def AccessData.has_data (a : AccessData) : Bool :=
  !(trimChars a.id_catalog.data).isEmpty && !(trimChars a.api_key.data).isEmpty

/-- Rust byte slice `&key[..n]`: the characters making up the first `n`
bytes of `key`; `none` when `n` is not a character boundary, in which
case the source panics. -/
def takeBytes : List Char → Nat → Option (List Char)
  | _, 0 => some []
  | [], _ + 1 => none
  | c :: rest, n + 1 =>
      if c.utf8Size ≤ n + 1 then (takeBytes rest (n + 1 - c.utf8Size)).map (c :: ·)
      else none

/-- `AccessData::mask_key`: a key of more than 5 bytes is shown as its
first 5 bytes followed by `*****`; shorter keys are shown in full.
`none` models the panic of `&key[..5]` when byte 5 is not a character
boundary. -/
def mask_key (key : List Char) : Option String :=
  if utf8ByteLen key ≤ 5 then some (String.mk key)
  else (takeBytes key 5).map (fun p => String.mk p ++ "*****")

/-- The `Display` impl for `AccessData`: both fields masked. -/
def AccessData.display (a : AccessData) : Option String :=
  match mask_key a.id_catalog.data, mask_key a.api_key.data with
  | some i, some k =>
      some ("AccessData | id-catalog: " ++ i ++ ", api-key: " ++ k ++ "\n")
  | _, _ => none

/-- Generation options, `GPTOptions` in ym-yagpt/src/models.rs.  The
`f32` temperature is modelled as a rational: the source only ever
compares it against 0 and 1, and those comparisons are exact on `f32`. -/
structure GPTOptions where
  model : String
  temperature : ℚ
  max_tokens : Int
deriving DecidableEq, Repr

/-- `GPTOptions::default()`. -/
def GPTOptions.default : GPTOptions :=
  { model := "yandexgpt/latest", temperature := 7 / 10, max_tokens := 2000 }

/-- Wire message, `ChatMessage` in ym-yagpt/src/models.rs. -/
structure ChatMessage where
  role : String
  text : String
deriving DecidableEq, Repr

/-- `CompletionOptions` in ym-yagpt/src/models.rs. -/
structure CompletionOptions where
  stream : Bool
  temperature : ℚ
  max_tokens : Int
deriving DecidableEq, Repr

/-- Request body, `ApiRequest` in ym-yagpt/src/models.rs. -/
structure ApiRequest where
  model_uri : String
  completion_options : CompletionOptions
  messages : List ChatMessage
deriving DecidableEq, Repr

/- ------------------------------------------------------------------ -/
/- GPTError (ym-yagpt/src/errors.rs, duplicated at src/errors.rs)      -/
/- ------------------------------------------------------------------ -/

/-- The error enum `GPTError`.  The variants and payloads are those used
by ym-yagpt/src/client.rs; the `Display` strings below are the ones in
src/errors.rs, the in-tree copy of the same enum. -/
inductive GPTError where
  | EmptyResponse
  | InvalidCredential
  | APIError (code : Int) (description : String)
  | ConfigError (description : String)
deriving DecidableEq, Repr

/-- The `Display` impl for `GPTError` (src/errors.rs). -/
def GPTError.display : GPTError → String
  | .EmptyResponse => "Получен пустой ответ от API"
  | .InvalidCredential => "Данные для авторизации неверные или устарели"
  | .APIError code description =>
      "Некорректный запрос к API: " ++ toString code ++ ", " ++ description
  | .ConfigError description =>
      "Некорректная конфигурация запроса GPT: " ++ description

/-- A client call fails either with a `GPTError` or with a propagated
transport / deserialization error (`reqwest`/`serde` errors boxed as
`Box<dyn Error>` in the source); `msg` carries that error's display. -/
inductive ClientError where
  | gpt (e : GPTError)
  | transport (msg : String)
deriving DecidableEq, Repr

/-- Human-readable text of a `ClientError`, as `{err}` formatting sees it. -/
def ClientError.display : ClientError → String
  | .gpt e => e.display
  | .transport msg => msg

/- ------------------------------------------------------------------ -/
/- ym-yagpt/src/client.rs                                              -/
/- ------------------------------------------------------------------ -/

/-- What the HTTP layer hands back for one exchange: the status code,
the body as raw text (`none` when `text()` fails, in which case
`unwrap_or_default` yields `""`), and the body parsed as the response
envelope — `some` holds the list of alternative texts, `none` models a
JSON deserialization failure of `response.json()`. -/
structure HttpResponse where
  status : Nat
  bodyText : Option String
  parsed : Option (List String)
deriving DecidableEq, Repr

/-- Outcome of `Client::post(..).send()`: either a transport-level
failure or an HTTP response. -/
inductive NetOutcome where
  | transportError (msg : String)
  | response (r : HttpResponse)
deriving DecidableEq, Repr

/-- The client, `GPTClient` in ym-yagpt/src/client.rs. -/
structure GPTClient where
  access : AccessData
  api_url : String
  gpt_options : GPTOptions
deriving DecidableEq, Repr

/-- `GPTClient::default()` / `GPTClient::new()`. -/
def GPTClient.new : GPTClient :=
  { access := AccessData.default
    api_url := "https://llm.api.cloud.yandex.net/foundationModels/v1/completion"
    gpt_options := GPTOptions.default }

/-- `GPTClient::set_auth`. -/
def GPTClient.set_auth (c : GPTClient) (id_catalog api_key : String) : GPTClient :=
  { c with access := ⟨id_catalog, api_key⟩ }

/-- `GPTClient::with_temperature`: panics (`none`) unless
`(0.0..=1.0).contains(&temperature)`. -/
def GPTClient.with_temperature (c : GPTClient) (temperature : ℚ) : Option GPTClient :=
  if 0 ≤ temperature ∧ temperature ≤ 1 then
    some { c with gpt_options := { c.gpt_options with temperature := temperature } }
  else none

/-- `GPTClient::with_max_tokens`: panics (`none`) when `max_tokens <= 0`. -/
def GPTClient.with_max_tokens (c : GPTClient) (max_tokens : Int) : Option GPTClient :=
  if max_tokens ≤ 0 then none
  else some { c with gpt_options := { c.gpt_options with max_tokens := max_tokens } }

/-- `GPTClient::model_uri`: `gpt://{id_catalog}/{model}`. -/
def GPTClient.model_uri (c : GPTClient) : String :=
  "gpt://" ++ c.access.id_catalog ++ "/" ++ c.gpt_options.model

/-- `GPTClient::build_request`: the shared request-body assembler. -/
def GPTClient.build_request (c : GPTClient) (messages : List ChatMessage) : ApiRequest :=
  { model_uri := c.model_uri
    completion_options :=
      { stream := false
        temperature := c.gpt_options.temperature
        max_tokens := c.gpt_options.max_tokens }
    messages := messages }

/-- `GPTClient::build_ask_request`: a single user-role message. -/
def GPTClient.build_ask_request (c : GPTClient) (prompt : String) : ApiRequest :=
  c.build_request [{ role := "user", text := prompt }]

/-- `GPTClient::build_chat_request`: each history entry at index `i`
gets role `role[i % 2]` where `role = ["assistant", "user"]`. -/
def GPTClient.build_chat_request (c : GPTClient) (messages : List String) : ApiRequest :=
  c.build_request <| messages.enum.map fun p =>
    { role := (["assistant", "user"].getD (p.1 % 2) ""), text := p.2 }

/-- `GPTClient::send_request`: classify the HTTP outcome.  A non-2xx
status becomes `InvalidCredential` when 401 and otherwise `APIError`
with the raw body text (empty when unreadable); a 2xx response is
returned for answer extraction. -/
def GPTClient.send_request (_c : GPTClient) (net : NetOutcome) :
    Except ClientError HttpResponse :=
  match net with
  | .transportError msg => .error (.transport msg)
  | .response r =>
      if !(200 ≤ r.status && r.status ≤ 299) then
        if r.status = 401 then .error (.gpt .InvalidCredential)
        else .error (.gpt (.APIError (r.status : Int) (r.bodyText.getD "")))
      else .ok r

/-- `GPTClient::extract_answer`: parse the body, take the first
alternative, `EmptyResponse` when there is none; a JSON failure is a
propagated transport-layer error. -/
def GPTClient.extract_answer (_c : GPTClient) (r : HttpResponse) :
    Except ClientError String :=
  match r.parsed with
  | none => .error (.transport "error decoding response body")
  | some alternatives =>
      match alternatives.head? with
      | some text => .ok text
      | none => .error (.gpt .EmptyResponse)

/-- `GPTClient::ask_gpt`.  The second component records whether the
network was touched: `ask_gpt` refuses before any I/O when
`has_data` is false. -/
def GPTClient.ask_gpt (c : GPTClient) (prompt : String)
    (net : ApiRequest → NetOutcome) : Except ClientError String × Bool :=
  if !c.access.has_data then (.error (.gpt .InvalidCredential), false)
  else
    match c.send_request (net (c.build_ask_request prompt)) with
    | .error e => (.error e, true)
    | .ok r => (c.extract_answer r, true)

/-- `GPTClient::chat_with_gpt`.  Unlike `ask_gpt` it performs no
credential check before issuing the request. -/
def GPTClient.chat_with_gpt (c : GPTClient) (messages : List String)
    (net : ApiRequest → NetOutcome) : Except ClientError String × Bool :=
  match c.send_request (net (c.build_chat_request messages)) with
  | .error e => (.error e, true)
  | .ok r => (c.extract_answer r, true)

/- ------------------------------------------------------------------ -/
/- ym-tui/src/app/core.rs : the App state                              -/
/- ------------------------------------------------------------------ -/

/-- The greeting line pushed by `App::new` and `clear_messages`. -/
def greeting : String := "YandexGPT готов к диалогу."

/-- Session state, `App` in ym-tui/src/app/core.rs (without the event
stream/terminal handles, which carry no session data).  The input
buffer is kept as its character sequence; `scroll_offset` is a `u16`
in the source. -/
structure App where
  running : Bool
  messages : List String
  input_buffer : List Char
  cursor_pos : Nat
  scroll_offset : Nat
  gpt_client : GPTClient
deriving DecidableEq, Repr

/-- `App::new` (the client is loaded from the credentials file at
startup; it is a parameter here). -/
def App.new (client : GPTClient) : App :=
  { running := true
    messages := [greeting]
    input_buffer := []
    cursor_pos := 0
    scroll_offset := 0
    gpt_client := client }

/-- `App::quit`. -/
def App.quit (a : App) : App := { a with running := false }

/- ------------------------------------------------------------------ -/
/- ym-tui/src/app/events.rs : key handling                             -/
/- ------------------------------------------------------------------ -/

/-- The buffer-editing key events of `handle_key_event`
(ym-tui/src/app/events.rs). -/
inductive Key where
  | chr (c : Char)
  | backspace
  | delete
  | left
  | right
  | ctrlLeft
  | ctrlRight
  | home
  | endKey
deriving DecidableEq, Repr

/-- `insert_char_at_cursor`: insert at the cursor when
`cursor_pos <= chars.len()` (a character index), advancing the cursor. -/
def insert_char_at_cursor (a : App) (c : Char) : App :=
  if a.cursor_pos ≤ a.input_buffer.length then
    { a with input_buffer := a.input_buffer.insertIdx a.cursor_pos c
             cursor_pos := a.cursor_pos + 1 }
  else a

/-- `delete_char_before_cursor` (Backspace): `chars.remove(cursor_pos - 1)`
panics (`none`) when that index is out of bounds. -/
def delete_char_before_cursor (a : App) : Option App :=
  if a.cursor_pos > 0 then
    if a.cursor_pos - 1 < a.input_buffer.length then
      some { a with input_buffer := a.input_buffer.eraseIdx (a.cursor_pos - 1)
                    cursor_pos := a.cursor_pos - 1 }
    else none
  else some a

/-- `delete_char_at_cursor` (Delete): guarded, never panics. -/
def delete_char_at_cursor (a : App) : App :=
  if a.cursor_pos < a.input_buffer.length then
    { a with input_buffer := a.input_buffer.eraseIdx a.cursor_pos }
  else a

/-- The Ctrl+Left loop: from position `n`, step left over alphanumeric
characters, reading `chars[n - 1]` at each step (`none` on an
out-of-bounds read, where the source panics). -/
def wordLeftLoop (chars : List Char) : Nat → Option Nat
  | 0 => some 0
  | n + 1 =>
      match chars[n]? with
      | none => none
      | some c => if c.isAlphanum then wordLeftLoop chars n else some (n + 1)

/-- The Ctrl+Right loop: step right while inside an alphanumeric run;
the guard `cursor < chars.len()` keeps the read in bounds. -/
def wordRightLoop (chars : List Char) (cursor : Nat) : Nat :=
  if h : cursor < chars.length then
    if (chars.get ⟨cursor, h⟩).isAlphanum then wordRightLoop chars (cursor + 1)
    else cursor
  else cursor
termination_by chars.length - cursor

/-- The buffer-editing arm of `handle_key_event`.  `Right` and `End`
compare the cursor against `input_buffer.len()` — the UTF-8 byte
length — while the other arms work with character indices. -/
def handle_edit_key (a : App) : Key → Option App
  | .chr c => some (insert_char_at_cursor a c)
  | .backspace => delete_char_before_cursor a
  | .delete => some (delete_char_at_cursor a)
  | .left =>
      some (if a.cursor_pos > 0 then { a with cursor_pos := a.cursor_pos - 1 } else a)
  | .right =>
      some (if a.cursor_pos < utf8ByteLen a.input_buffer then
              { a with cursor_pos := a.cursor_pos + 1 }
            else a)
  | .home => some { a with cursor_pos := 0 }
  | .endKey => some { a with cursor_pos := utf8ByteLen a.input_buffer }
  | .ctrlLeft =>
      (wordLeftLoop a.input_buffer (a.cursor_pos - 1)).map
        fun p => { a with cursor_pos := p }
  | .ctrlRight =>
      let m := wordRightLoop a.input_buffer a.cursor_pos
      some { a with cursor_pos := if m < a.input_buffer.length then m + 1 else m }

/-- Run a sequence of editing key events; `none` as soon as one panics. -/
def handle_keys (a : App) : List Key → Option App
  | [] => some a
  | k :: ks =>
      match handle_edit_key a k with
      | none => none
      | some a2 => handle_keys a2 ks

/- ------------------------------------------------------------------ -/
/- ym-tui/src/app/messaging.rs                                         -/
/- ------------------------------------------------------------------ -/

/-- `update_scroll_offset`: `(messages.len() - VISIBLE_LINES) as u16`
once the history exceeds the 20 visible lines (the cast wraps). -/
def update_scroll_offset (a : App) : App :=
  if a.messages.length > 20 then
    { a with scroll_offset := (a.messages.length - 20) % 65536 }
  else a

/-- `send_message_to_gpt`: when the trimmed buffer is non-empty, push
the user line (untrimmed buffer), call `chat_with_gpt` on the whole
history, push the answer — or the formatted error line — then clear the
buffer, reset the cursor and update the scroll offset.  The second
component records whether an exchange was issued. -/
def send_message_to_gpt (a : App) (net : ApiRequest → NetOutcome) : App × Bool :=
  if !(trimChars a.input_buffer).isEmpty then
    let msgs1 := a.messages ++ ["Вы: " ++ String.mk a.input_buffer]
    let gpt_answer :=
      match (a.gpt_client.chat_with_gpt msgs1 net).1 with
      | .ok text => text
      | .error err => "Ошибка ответа модели: " ++ err.display
    (update_scroll_offset
      { a with messages := msgs1 ++ [gpt_answer]
               input_buffer := []
               cursor_pos := 0 },
     true)
  else (a, false)

/-- `add_system_message`. -/
def add_system_message (a : App) (message : String) : App :=
  { a with messages := a.messages ++ ["Система: " ++ message] }

/-- `clear_messages`: history becomes the single greeting line and the
scroll offset is reset; buffer and cursor are untouched. -/
def clear_messages (a : App) : App :=
  { a with messages := [greeting], scroll_offset := 0 }

/-- A network oracle that answers every request with HTTP 200 and a
single alternative `answer` — one successful exchange. -/
def successNet (answer : String) : ApiRequest → NetOutcome :=
  fun _ => .response { status := 200, bodyText := some "", parsed := some [answer] }

/-- `N` consecutive submits: each round types `input` into the buffer
and presses Enter, with the exchange answering `answer`. -/
def runSubmits (a : App) : List (String × String) → App
  | [] => a
  | (input, answer) :: rest =>
      runSubmits
        (send_message_to_gpt
          { a with input_buffer := input.data, cursor_pos := input.data.length }
          (successNet answer)).1
        rest

/-- The expected conversation lines produced by a list of submit
rounds: a user line holding the untrimmed input, then the answer. -/
def dialogue : List (String × String) → List String
  | [] => []
  | (input, answer) :: rest => ("Вы: " ++ input) :: answer :: dialogue rest

/- ------------------------------------------------------------------ -/
/- Helper lemmas                                                       -/
/- ------------------------------------------------------------------ -/

lemma utf8ByteLen_cons (c : Char) (s : List Char) :
    utf8ByteLen (c :: s) = c.utf8Size + utf8ByteLen s := by
  simp [utf8ByteLen]

lemma takeBytes_append (pre suf : List Char) :
    takeBytes (pre ++ suf) (utf8ByteLen pre) = some pre := by
  induction pre generalizing suf with
  | nil => simp [takeBytes, utf8ByteLen]
  | cons c pre ih =>
      have hpos : 0 < c.utf8Size := Char.utf8Size_pos c
      obtain ⟨k, hk⟩ : ∃ k, utf8ByteLen (c :: pre) = k + 1 :=
        ⟨utf8ByteLen (c :: pre) - 1, by rw [utf8ByteLen_cons]; omega⟩
      rw [hk]
      show takeBytes (c :: (pre ++ suf)) (k + 1) = some (c :: pre)
      rw [utf8ByteLen_cons] at hk
      have hle : c.utf8Size ≤ k + 1 := by omega
      have hrest : k + 1 - c.utf8Size = utf8ByteLen pre := by omega
      simp only [takeBytes, if_pos hle, hrest, ih]
      rfl

lemma update_scroll_offset_messages (a : App) :
    (update_scroll_offset a).messages = a.messages := by
  unfold update_scroll_offset; split <;> rfl

lemma update_scroll_offset_input_buffer (a : App) :
    (update_scroll_offset a).input_buffer = a.input_buffer := by
  unfold update_scroll_offset; split <;> rfl

lemma update_scroll_offset_cursor_pos (a : App) :
    (update_scroll_offset a).cursor_pos = a.cursor_pos := by
  unfold update_scroll_offset; split <;> rfl

lemma update_scroll_offset_running (a : App) :
    (update_scroll_offset a).running = a.running := by
  unfold update_scroll_offset; split <;> rfl

lemma chat_with_gpt_snd (c : GPTClient) (messages : List String)
    (net : ApiRequest → NetOutcome) : (c.chat_with_gpt messages net).2 = true := by
  unfold GPTClient.chat_with_gpt
  rcases c.send_request (net (c.build_chat_request messages)) with e | r <;> rfl

/- ------------------------------------------------------------------ -/
/- Claim theorems                                                      -/
/- ------------------------------------------------------------------ -/

/-- C1: the cursor invariant `0 ≤ cursor ≤ length(buffer)` (in
characters) fails on the code.  From the initial state, typing the
two-byte character `б` and pressing End is a reachable state whose
cursor (2, the byte length used by the `End` arm) exceeds the
1-character buffer; a following Backspace then panics
(`Vec::remove` out of bounds). -/
theorem C1_cursor_exceeds_char_count :
    ∃ a : App,
      handle_keys (App.new GPTClient.new) [Key.chr 'б', Key.endKey] = some a
      ∧ a.input_buffer.length < a.cursor_pos
      ∧ handle_keys a [Key.backspace] = none :=
  ⟨{ running := true, messages := [greeting], input_buffer := ['б'],
     cursor_pos := 2, scroll_offset := 0, gpt_client := GPTClient.new },
    rfl, by decide, rfl⟩

/-- C2 counterexample: `chat_with_gpt` performs no credential check.
With completely empty credentials it still issues the network request
(second component `true`) and returns whatever the exchange yields —
here `ok "hi"`, not `InvalidCredential`. -/
theorem C2_chat_without_credentials_counterexample :
    GPTClient.new.access.has_data = false
    ∧ GPTClient.new.chat_with_gpt ["q"] (successNet "hi") = (.ok "hi", true)
    ∧ (GPTClient.new.chat_with_gpt ["q"] (successNet "hi")).1
        ≠ .error (.gpt .InvalidCredential) := by
  refine ⟨rfl, rfl, fun h => ?_⟩
  rw [show (GPTClient.new.chat_with_gpt ["q"] (successNet "hi")).1
        = Except.ok "hi" from rfl] at h
  exact Except.noConfusion h

/-- C2 (amended): with empty (or whitespace-only) credentials,
`ask_gpt` fails immediately with `InvalidCredential` and performs no
network I/O; `chat_with_gpt` has no such guard and always issues the
request. -/
theorem C2_credential_check_ask_only (c : GPTClient) (prompt : String)
    (net : ApiRequest → NetOutcome) (h : c.access.has_data = false) :
    c.ask_gpt prompt net = (.error (.gpt .InvalidCredential), false)
    ∧ ∀ messages, (c.chat_with_gpt messages net).2 = true := by
  constructor
  · unfold GPTClient.ask_gpt
    rw [h]
    rfl
  · intro messages
    exact chat_with_gpt_snd c messages net

/-- C2 witness: the amended statement at the default (empty) credentials. -/
theorem C2_credential_check_ask_only_witness :
    GPTClient.new.ask_gpt "q" (successNet "hi")
      = (.error (.gpt .InvalidCredential), false)
    ∧ (GPTClient.new.chat_with_gpt [""] (successNet "hi")).2 = true := by
  have h := C2_credential_check_ask_only GPTClient.new "q" (successNet "hi") rfl
  exact ⟨h.1, h.2 [""]⟩

/-- C3: `build_chat_request` assigns roles purely by index parity —
even index `assistant`, odd index `user` — and in particular history
`["a", "b", "c"]` gets roles `["assistant", "user", "assistant"]`. -/
theorem C3_roles_by_index_parity :
    (∀ (c : GPTClient) (msgs : List String),
        (c.build_chat_request msgs).messages.map ChatMessage.role
          = (List.range msgs.length).map
              fun i => if i % 2 = 0 then "assistant" else "user")
    ∧ (GPTClient.new.build_chat_request ["a", "b", "c"]).messages.map
        ChatMessage.role = ["assistant", "user", "assistant"] := by
  constructor
  · intro c msgs
    simp only [GPTClient.build_chat_request, GPTClient.build_request,
      List.map_map, List.enum_eq_zip_range]
    have hc : (ChatMessage.role ∘ fun p : Nat × String =>
        ChatMessage.mk (["assistant", "user"].getD (p.1 % 2) "") p.2)
          = (fun i => if i % 2 = 0 then "assistant" else "user") ∘ Prod.fst := by
      funext p
      rcases Nat.mod_two_eq_zero_or_one p.1 with h | h <;>
        simp [Function.comp, h]
    rw [hc, ← List.map_map, List.map_fst_zip]
    simp [List.length_range]
  · rfl

/-- C7: submitting an empty or whitespace-only buffer is a no-op — the
whole state (history, scroll offset, buffer, cursor) is returned
unchanged and no request is issued. -/
theorem C7_blank_submit_noop (a : App) (net : ApiRequest → NetOutcome)
    (h : (trimChars a.input_buffer).isEmpty = true) :
    send_message_to_gpt a net = (a, false) := by
  unfold send_message_to_gpt
  rw [h]
  rfl

/-- C7 witness: a whitespace-only buffer at the initial state. -/
theorem C7_blank_submit_noop_witness :
    send_message_to_gpt
        { App.new GPTClient.new with input_buffer := [' ', ' '] }
        (successNet "hi")
      = ({ App.new GPTClient.new with input_buffer := [' ', ' '] }, false) :=
  C7_blank_submit_noop _ _ (by decide)

/-- C8: `clear_messages` resets the history to the single greeting
line and the scroll offset to 0, for every prior state, leaving the
input buffer, cursor and running flag untouched. -/
theorem C8_clear_history_resets (a : App) :
    (clear_messages a).messages = [greeting]
    ∧ (clear_messages a).messages.length = 1
    ∧ (clear_messages a).scroll_offset = 0
    ∧ (clear_messages a).input_buffer = a.input_buffer
    ∧ (clear_messages a).cursor_pos = a.cursor_pos
    ∧ (clear_messages a).running = a.running :=
  ⟨rfl, rfl, rfl, rfl, rfl, rfl⟩

lemma send_request_response (c : GPTClient) (r : HttpResponse) :
    c.send_request (.response r)
      = if 200 ≤ r.status ∧ r.status ≤ 299 then .ok r
        else if r.status = 401 then .error (.gpt .InvalidCredential)
        else .error (.gpt (.APIError (r.status : Int) (r.bodyText.getD ""))) := by
  by_cases hs : 200 ≤ r.status ∧ r.status ≤ 299
  · simp [GPTClient.send_request, hs.1, hs.2, hs]
  · have hb : (200 ≤ r.status && r.status ≤ 299) = false := by
      rcases not_and_or.mp hs with h | h
      · simp [decide_eq_false h]
      · simp [decide_eq_false h]
    simp [GPTClient.send_request, hb, hs]

/-- C4: response classification.  A 401 yields `InvalidCredential`
whatever the body holds; any other non-2xx status yields `APIError`
with the raw body text (empty when unreadable); a 2xx response yields
the first alternative of the parsed body, or `EmptyResponse` when the
alternatives are empty. -/
theorem C4_response_classification (c : GPTClient) (msgs : List String)
    (r : HttpResponse) :
    (r.status = 401 →
        (c.chat_with_gpt msgs fun _ => .response r).1
          = .error (.gpt .InvalidCredential))
    ∧ (¬(200 ≤ r.status ∧ r.status ≤ 299) → r.status ≠ 401 →
        (c.chat_with_gpt msgs fun _ => .response r).1
          = .error (.gpt (.APIError (r.status : Int) (r.bodyText.getD ""))))
    ∧ (∀ text rest, 200 ≤ r.status → r.status ≤ 299 →
        r.parsed = some (text :: rest) →
        (c.chat_with_gpt msgs fun _ => .response r).1 = .ok text)
    ∧ (200 ≤ r.status → r.status ≤ 299 → r.parsed = some [] →
        (c.chat_with_gpt msgs fun _ => .response r).1
          = .error (.gpt .EmptyResponse)) := by
  refine ⟨fun h401 => ?_, fun hns h401 => ?_, fun text rest h2 h2b hp => ?_,
    fun h2 h2b hp => ?_⟩
  · have hsr : c.send_request (.response r) = .error (.gpt .InvalidCredential) := by
      rw [send_request_response, if_neg (by omega), if_pos h401]
    simp [GPTClient.chat_with_gpt, hsr]
  · have hsr : c.send_request (.response r)
        = .error (.gpt (.APIError (r.status : Int) (r.bodyText.getD ""))) := by
      rw [send_request_response, if_neg hns, if_neg h401]
    simp [GPTClient.chat_with_gpt, hsr]
  · have hsr : c.send_request (.response r) = .ok r := by
      rw [send_request_response, if_pos ⟨h2, h2b⟩]
    simp [GPTClient.chat_with_gpt, hsr, GPTClient.extract_answer, hp]
  · have hsr : c.send_request (.response r) = .ok r := by
      rw [send_request_response, if_pos ⟨h2, h2b⟩]
    simp [GPTClient.chat_with_gpt, hsr, GPTClient.extract_answer, hp]

/-- C4 witness: the four classification cases at concrete responses —
401 with a non-empty body, 500 with body `oops`, 200 with alternatives
`["hi", "alt"]`, and 200 with no alternatives. -/
theorem C4_response_classification_witness :
    (GPTClient.new.chat_with_gpt ["q"] fun _ =>
        .response ⟨401, some "nope", some ["x"]⟩).1
      = .error (.gpt .InvalidCredential)
    ∧ (GPTClient.new.chat_with_gpt ["q"] fun _ =>
        .response ⟨500, some "oops", none⟩).1
      = .error (.gpt (.APIError 500 "oops"))
    ∧ (GPTClient.new.chat_with_gpt ["q"] fun _ =>
        .response ⟨200, some "", some ["hi", "alt"]⟩).1 = .ok "hi"
    ∧ (GPTClient.new.chat_with_gpt ["q"] fun _ =>
        .response ⟨200, some "", some []⟩).1
      = .error (.gpt .EmptyResponse) :=
  ⟨(C4_response_classification GPTClient.new ["q"] ⟨401, some "nope", some ["x"]⟩).1
      rfl,
   (C4_response_classification GPTClient.new ["q"] ⟨500, some "oops", none⟩).2.1
      (by decide) (by decide),
   (C4_response_classification GPTClient.new ["q"] ⟨200, some "", some ["hi", "alt"]⟩).2.2.1
      "hi" ["alt"] (by decide) (by decide) rfl,
   (C4_response_classification GPTClient.new ["q"] ⟨200, some "", some []⟩).2.2.2
      (by decide) (by decide) rfl⟩

/-- C5: when the buffer is non-whitespace and the exchange fails with
any error, exactly one error line is appended after the user line, the
buffer is cleared, the cursor reset to 0, the running flag untouched
(the session survives), and the exchange was issued. -/
theorem C5_failed_exchange_recovery (a : App) (net : ApiRequest → NetOutcome)
    (e : ClientError)
    (hbuf : (trimChars a.input_buffer).isEmpty = false)
    (hfail : (a.gpt_client.chat_with_gpt
        (a.messages ++ ["Вы: " ++ String.mk a.input_buffer]) net).1 = .error e) :
    (send_message_to_gpt a net).1.messages
      = a.messages ++ ["Вы: " ++ String.mk a.input_buffer,
          "Ошибка ответа модели: " ++ e.display]
    ∧ (send_message_to_gpt a net).1.input_buffer = []
    ∧ (send_message_to_gpt a net).1.cursor_pos = 0
    ∧ (send_message_to_gpt a net).1.running = a.running
    ∧ (send_message_to_gpt a net).2 = true := by
  unfold send_message_to_gpt
  rw [hbuf]
  simp only [Bool.not_false, if_true, hfail, update_scroll_offset_messages,
    update_scroll_offset_input_buffer, update_scroll_offset_cursor_pos,
    update_scroll_offset_running]
  simp

/-- C5 witness: submitting `hi` over a failing transport appends the
user line and one error line, clears the buffer and keeps running. -/
theorem C5_failed_exchange_recovery_witness :
    (send_message_to_gpt
        { running := true, messages := [greeting], input_buffer := ['h', 'i'],
          cursor_pos := 2, scroll_offset := 0, gpt_client := GPTClient.new }
        fun _ => .transportError "boom").1.messages
      = [greeting, "Вы: hi", "Ошибка ответа модели: boom"]
    ∧ (send_message_to_gpt
        { running := true, messages := [greeting], input_buffer := ['h', 'i'],
          cursor_pos := 2, scroll_offset := 0, gpt_client := GPTClient.new }
        fun _ => .transportError "boom").1.input_buffer = []
    ∧ (send_message_to_gpt
        { running := true, messages := [greeting], input_buffer := ['h', 'i'],
          cursor_pos := 2, scroll_offset := 0, gpt_client := GPTClient.new }
        fun _ => .transportError "boom").1.cursor_pos = 0
    ∧ (send_message_to_gpt
        { running := true, messages := [greeting], input_buffer := ['h', 'i'],
          cursor_pos := 2, scroll_offset := 0, gpt_client := GPTClient.new }
        fun _ => .transportError "boom").1.running = true := by
  have h := C5_failed_exchange_recovery
    { running := true, messages := [greeting], input_buffer := ['h', 'i'],
      cursor_pos := 2, scroll_offset := 0, gpt_client := GPTClient.new }
    (fun _ => .transportError "boom") (.transport "boom") (by decide) rfl
  refine ⟨?_, h.2.1, h.2.2.1, h.2.2.2.1⟩
  rw [h.1]
  rfl

lemma chat_with_gpt_successNet (c : GPTClient) (msgs : List String)
    (answer : String) :
    c.chat_with_gpt msgs (successNet answer) = (.ok answer, true) := rfl

lemma send_success_messages (a : App) (answer : String)
    (h : (trimChars a.input_buffer).isEmpty = false) :
    (send_message_to_gpt a (successNet answer)).1.messages
      = a.messages ++ ["Вы: " ++ String.mk a.input_buffer, answer] := by
  unfold send_message_to_gpt
  rw [h]
  simp only [Bool.not_false, if_true, chat_with_gpt_successNet,
    update_scroll_offset_messages]
  simp

lemma runSubmits_messages (rounds : List (String × String)) :
    ∀ a : App, (∀ p ∈ rounds, (trimChars p.1.data).isEmpty = false) →
      (runSubmits a rounds).messages = a.messages ++ dialogue rounds := by
  induction rounds with
  | nil => intro a _; simp [runSubmits, dialogue]
  | cons p rest ih =>
      rcases p with ⟨input, answer⟩
      intro a h
      have hin : (trimChars input.data).isEmpty = false :=
        h (input, answer) (List.mem_cons_self _ _)
      have hrest : ∀ p ∈ rest, (trimChars p.1.data).isEmpty = false :=
        fun p hp => h p (List.mem_cons_of_mem _ hp)
      show (runSubmits (send_message_to_gpt
          { a with input_buffer := input.data, cursor_pos := input.data.length }
          (successNet answer)).1 rest).messages = _
      rw [ih _ hrest, send_success_messages _ _ hin]
      simp [dialogue]

lemma dialogue_length (rounds : List (String × String)) :
    (dialogue rounds).length = 2 * rounds.length := by
  induction rounds with
  | nil => rfl
  | cons p rest ih =>
      rcases p with ⟨input, answer⟩
      simp [dialogue, ih]
      omega

/-- C6: after `N` consecutive successful submits from the initial
state, the history is exactly the greeting followed by the user line
(holding the untrimmed buffer as typed) and the answer of each round —
in particular it has `2N + 1` entries. -/
theorem C6_history_growth (client : GPTClient) (rounds : List (String × String))
    (h : ∀ p ∈ rounds, (trimChars p.1.data).isEmpty = false) :
    (runSubmits (App.new client) rounds).messages = greeting :: dialogue rounds
    ∧ (runSubmits (App.new client) rounds).messages.length
        = 2 * rounds.length + 1 := by
  have hm := runSubmits_messages rounds (App.new client) h
  constructor
  · simpa [App.new] using hm
  · rw [hm]
    simp [App.new, dialogue_length]

/-- C6 witness: two successful submits, the second with surrounding
whitespace kept in the user line. -/
theorem C6_history_growth_witness :
    (runSubmits (App.new GPTClient.new)
        [("hi", "ok"), (" b ", "fine")]).messages
      = [greeting, "Вы: hi", "ok", "Вы:  b ", "fine"]
    ∧ (runSubmits (App.new GPTClient.new)
        [("hi", "ok"), (" b ", "fine")]).messages.length = 5 := by
  have h := C6_history_growth GPTClient.new [("hi", "ok"), (" b ", "fine")]
    (by decide)
  exact ⟨by rw [h.1]; rfl, by rw [h.2]; rfl⟩

/-- C9: numeric configuration is validated by the constructor setters —
a temperature outside `[0, 1]` or a non-positive max-token count is
rejected (the source panics) and never stored; in-bounds values are
stored unchanged; the call-time entry points perform no such check and
always proceed to the exchange. -/
theorem C9_config_bounds (c : GPTClient) (t : ℚ) (m : Int) :
    (¬(0 ≤ t ∧ t ≤ 1) → c.with_temperature t = none)
    ∧ (0 ≤ t → t ≤ 1 → c.with_temperature t
        = some { c with gpt_options := { c.gpt_options with temperature := t } })
    ∧ (m ≤ 0 → c.with_max_tokens m = none)
    ∧ (0 < m → c.with_max_tokens m
        = some { c with gpt_options := { c.gpt_options with max_tokens := m } })
    ∧ (∀ prompt net, c.access.has_data = true → (c.ask_gpt prompt net).2 = true)
    ∧ (∀ messages net, (c.chat_with_gpt messages net).2 = true) := by
  refine ⟨fun h => ?_, fun h0 h1 => ?_, fun h => ?_, fun h => ?_,
    fun prompt net hd => ?_, fun messages net => chat_with_gpt_snd c messages net⟩
  · unfold GPTClient.with_temperature
    rw [if_neg h]
  · unfold GPTClient.with_temperature
    rw [if_pos ⟨h0, h1⟩]
  · unfold GPTClient.with_max_tokens
    rw [if_pos h]
  · unfold GPTClient.with_max_tokens
    rw [if_neg (by omega)]
  · unfold GPTClient.ask_gpt
    rw [hd]
    rcases hsr : c.send_request (net (c.build_ask_request prompt)) with e | r <;>
      simp [hsr]

/-- C9 witness: temperature 2 and max-tokens 0 are rejected at
configuration time; temperature 1/2 and max-tokens 5 are stored
unchanged; with valid credentials (and regardless of stored options)
`ask_gpt` and `chat_with_gpt` proceed to the exchange. -/
theorem C9_config_bounds_witness :
    GPTClient.new.with_temperature 2 = none
    ∧ GPTClient.new.with_temperature (1 / 2)
        = some { GPTClient.new with gpt_options :=
            { GPTClient.new.gpt_options with temperature := 1 / 2 } }
    ∧ GPTClient.new.with_max_tokens 0 = none
    ∧ GPTClient.new.with_max_tokens 5
        = some { GPTClient.new with gpt_options :=
            { GPTClient.new.gpt_options with max_tokens := 5 } }
    ∧ ((GPTClient.new.set_auth "id" "key").ask_gpt "q" (successNet "hi")).2 = true
    ∧ (GPTClient.new.chat_with_gpt [] (successNet "hi")).2 = true :=
  ⟨(C9_config_bounds GPTClient.new 2 0).1 (by norm_num),
   (C9_config_bounds GPTClient.new (1 / 2) 0).2.1 (by norm_num) (by norm_num),
   (C9_config_bounds GPTClient.new 0 0).2.2.1 le_rfl,
   (C9_config_bounds GPTClient.new 0 5).2.2.2.1 (by norm_num),
   (C9_config_bounds (GPTClient.new.set_auth "id" "key") 0 0).2.2.2.2.1
      "q" (successNet "hi") (by decide),
   (C9_config_bounds GPTClient.new 0 0).2.2.2.2.2 [] (successNet "hi")⟩

/-- C10 counterexample: a key of 6 bytes whose 5th byte offset falls
inside a character — `&key[..5]` panics in the source instead of
displaying the first 5 bytes followed by the mask. -/
theorem C10_multibyte_key_panics :
    5 < utf8ByteLen "ббб".data ∧ mask_key "ббб".data = none :=
  ⟨by decide, rfl⟩

/-- C10 (amended): keys of at most 5 bytes are displayed completely
unmasked; a longer key whose byte offset 5 is a character boundary is
displayed as its first 5 bytes followed by `*****` (otherwise the
slicing panics). -/
theorem C10_mask_key_split (key : List Char) :
    (utf8ByteLen key ≤ 5 → mask_key key = some (String.mk key))
    ∧ (∀ pre suf, key = pre ++ suf → utf8ByteLen pre = 5 →
        5 < utf8ByteLen key →
        mask_key key = some (String.mk pre ++ "*****")) := by
  constructor
  · intro h
    unfold mask_key
    rw [if_pos h]
  · intro pre suf hks hpre hlen
    unfold mask_key
    rw [if_neg (by omega)]
    subst hks
    rw [← hpre, takeBytes_append]
    rfl

/-- C10 witness: a 3-byte key shown in full and an 8-byte ASCII key
masked after its first 5 bytes. -/
theorem C10_mask_key_split_witness :
    mask_key "abc".data = some "abc"
    ∧ mask_key "abcdefgh".data = some "abcde*****" := by
  constructor
  · exact (C10_mask_key_split "abc".data).1 (by decide)
  · have h := (C10_mask_key_split "abcdefgh".data).2 "abcde".data "fgh".data
      rfl (by decide) (by decide)
    rw [h]
    rfl

end YM
